import Mathlib

/-!
Shallow embedding of the `lorawan-device` crate core (lulf/rust-lorawan):
the Device facade (`src/device/src/lib.rs`), the Shared context and
downlink slot (`src/device/src/state_machines/mod.rs`), and the
join/active state machines. The state-machine sub-modules
(`state_machines/no_session.rs`, `state_machines/session.rs`),
`types.rs`, `mac.rs`, `radio.rs` and `region/` are not part of the
visible sources; where a claim depends on them they are modelled from
the specification (each such definition is marked in its doc comment).

Modelling conventions: Rust `&mut self` methods become pure functions
returning the updated value (or a pair of result and updated value);
opaque byte-array key material, the radio handle, the region
configuration, the MAC state and the randomness function pointer are
modelled as tokens (type parameter `R` for the radio, `Nat` tokens for
the rest) since no claim inspects their contents; frame counters are
`u32` values modelled as `Nat` (the spec describes them as monotonically
increasing, with no wrap behaviour specified). The external
crypto/encoding collaborator is pure (spec section 6); its verdict on a
received frame is carried inside the `RadioEvent` payload.
-/

namespace LorawanDevice

variable {R : Type}

/-- Decrypted application downlink payload
(`DecryptedDataPayload<Vec<u8, U256>>` in the source); the bytes are the
decrypted payload. -/
structure DecryptedDataPayload where
  bytes : List Nat
deriving DecidableEq

/-- `JoinAccept` from `state_machines/mod.rs`: the optional channel list
(`cflist: Option<[u32; 5]>`) delivered by a join-accept. -/
structure JoinAccept where
  cflist : Option (List Nat)
deriving DecidableEq

/-- The staged-downlink slot contents, `enum Downlink` from
`state_machines/mod.rs`: either a decrypted data payload or a
join-accept result. -/
inductive Downlink where
  | data (payload : DecryptedDataPayload)
  | join (accept : JoinAccept)
deriving DecidableEq

/-- Join identity record (`Credentials` lives in the `types.rs` module,
not in the visible sources). Modelled from the spec: device EUI, join
EUI (appeui) and root key (appkey); `Credentials::new(appeui, deveui,
appkey)` is called in `lib.rs`. -/
structure Credentials where
  appeui : List Nat
  deveui : List Nat
  appkey : List Nat
deriving DecidableEq

def Credentials.new (appeui deveui appkey : List Nat) : Credentials :=
  { appeui := appeui, deveui := deveui, appkey := appkey }

/-- `Shared` from `state_machines/mod.rs`: radio handle, credentials,
region configuration, MAC state, randomness source, transmit buffer,
staged-downlink slot and active datarate. The radio is the type
parameter `R`; region, MAC and the randomness function pointer are
opaque tokens. `lib.rs` treats the credentials field as
`Option<Credentials>` (`get_mut_credentials().replace(..)`, `None` in
`new_state`), so it is modelled as an `Option`. -/
structure Shared (R : Type) where
  radio : R
  credentials : Option Credentials
  region : Nat
  mac : Nat
  get_random : Nat
  buffer : List Nat
  downlink : Option Downlink
  datarate : Nat
deriving DecidableEq

def Shared.get_datarate (s : Shared R) : Nat :=
  s.datarate

def Shared.set_datarate (s : Shared R) (datarate : Nat) : Shared R :=
  { s with datarate := datarate }

/-- `Shared::take_data_downlink`: `self.downlink.take()` removes
whatever is staged; the payload is returned only when it was a
`Downlink::Data`. -/
def Shared.take_data_downlink (s : Shared R) :
    Option DecryptedDataPayload × Shared R :=
  let taken := s.downlink
  let s := { s with downlink := none }
  match taken with
  | some (Downlink.data payload) => (some payload, s)
  | _ => (none, s)

/-- `Shared::take_join_accept`: `self.downlink.take()` removes whatever
is staged; the accept is returned only when it was a `Downlink::Join`. -/
def Shared.take_join_accept (s : Shared R) :
    Option JoinAccept × Shared R :=
  let taken := s.downlink
  let s := { s with downlink := none }
  match taken with
  | some (Downlink.join accept) => (some accept, s)
  | _ => (none, s)

/-- Modelled from the spec: `SessionData` (in
`state_machines/no_session.rs`, not in the visible sources) holds the
network session key, application session key, device address and the
two frame counters. Keys and address are opaque tokens. -/
structure SessionData where
  newskey : Nat
  appskey : Nat
  devaddr : Nat
  fcnt_up : Nat
  fcnt_down : Nat
deriving DecidableEq

/-- Modelled from the spec: `SessionData::new(newskey, appskey,
devaddr)` (called from `State::new_abp` in `lib.rs`) initializes both
frame counters to zero. -/
def SessionData.new (newskey appskey devaddr : Nat) : SessionData :=
  { newskey := newskey, appskey := appskey, devaddr := devaddr,
    fcnt_up := 0, fcnt_down := 0 }

/-- Modelled from the spec: `SessionKeys` (in `types.rs`, not in the
visible sources) copies the session keys and device address out of a
`SessionData` for observation, per
`SessionKeys::copy_from_session_data` in `lib.rs`. -/
structure SessionKeys where
  newskey : Nat
  appskey : Nat
  devaddr : Nat
deriving DecidableEq

def SessionKeys.copy_from_session_data (sd : SessionData) : SessionKeys :=
  { newskey := sd.newskey, appskey := sd.appskey, devaddr := sd.devaddr }

/-- Receive-window progress while waiting for a join-accept (spec
section 4.3: first window, then the longer-delay second window). -/
inductive JoinRxWindow where
  | first
  | second
deriving DecidableEq

/-- Receive-window progress while waiting for a data downlink (spec
sections 4.4 and glossary RX1/RX2). -/
inductive DataRxWindow where
  | first
  | second
deriving DecidableEq

/-- Modelled from the spec: the Join State machine
(`state_machines/no_session.rs`, not in the visible sources). Spec
section 4.3: sub-states Idle (no handshake in flight) and
WaitingForJoinAccept (handshake sent, awaiting downlink within the
receive windows). Each sub-state owns the Shared context. -/
inductive NoSession (R : Type) where
  | idle (shared : Shared R)
  | waitingForJoinAccept (shared : Shared R) (window : JoinRxWindow)
deriving DecidableEq

/-- Modelled from the spec: the Active State machine
(`state_machines/session.rs`, not in the visible sources). Spec
section 4.4: sub-states Idle, Sending (frame built and handed to the
radio) and WaitingForDownlink (after transmit, within the receive
windows, possibly expecting an acknowledgment for a confirmed
uplink). Each sub-state owns the Shared context and the SessionData;
`session::Session::Idle(_)` is matched by name in `lib.rs`. -/
inductive Session (R : Type) where
  | idle (shared : Shared R) (session_data : SessionData)
  | sending (shared : Shared R) (session_data : SessionData) (confirmed : Bool)
  | waitingForDownlink (shared : Shared R) (session_data : SessionData)
      (confirmed : Bool) (window : DataRxWindow)
deriving DecidableEq

/-- `Session::get_session_data` (used by `Device::get_fcnt_up` and
`Device::get_session_keys` in every Session sub-state). -/
def Session.get_session_data : Session R → SessionData
  | .idle _ sd => sd
  | .sending _ sd _ => sd
  | .waitingForDownlink _ sd _ _ => sd

def NoSession.get_shared : NoSession R → Shared R
  | .idle s => s
  | .waitingForJoinAccept s _ => s

def Session.get_shared : Session R → Shared R
  | .idle s _ => s
  | .sending s _ _ => s
  | .waitingForDownlink s _ _ _ => s

/-- Replace the Shared context owned by a Join-state value, keeping the
sub-state (the Lean rendering of the state's `&mut Shared` access). -/
def NoSession.with_shared : NoSession R → Shared R → NoSession R
  | .idle _, s => .idle s
  | .waitingForJoinAccept _ w, s => .waitingForJoinAccept s w

/-- Replace the Shared context owned by an Active-state value, keeping
the sub-state and session data. -/
def Session.with_shared : Session R → Shared R → Session R
  | .idle _ sd, s => .idle s sd
  | .sending _ sd c, s => .sending s sd c
  | .waitingForDownlink _ sd c w, s => .waitingForDownlink s sd c w

/-- `enum State` from `lib.rs`: the Device is a sum over the two
mutually-exclusive state machines. -/
inductive State (R : Type) where
  | noSession (ns : NoSession R)
  | session (s : Session R)
deriving DecidableEq

/-- `Device` from `lib.rs` (the `PhantomData<C>` crypto marker is
zero-sized and omitted). -/
structure Device (R : Type) where
  state : State R
deriving DecidableEq

/-- `Response` from `lib.rs`. -/
inductive Response where
  | noUpdate
  | timeoutRequest (at_time : Nat)
  | joinRequestSending
  | joinSuccess
  | noJoinAccept
  | uplinkSending (fcnt_up : Nat)
  | downlinkReceived (fcnt_down : Nat)
  | noAck
  | readyToSend
  | sessionExpired
deriving DecidableEq

/-- Modelled from the spec: `no_session::Error` (not in the visible
sources). Spec sections 4.3 and 7: a send-data request before a session
exists violates the state-machine contract. -/
inductive NoSessionError where
  | sendDataWhileNoSession
deriving DecidableEq

/-- Modelled from the spec: `session::Error` (not in the visible
sources). Spec section 5: at most one uplink is in flight at once, so a
send-data request while one is in flight is a contract violation. -/
inductive SessionError where
  | sendDataWhileNotIdle
deriving DecidableEq

/-- `Error` from `lib.rs`: radio-layer, Active-state and Join-state
errors (`Error::NoSession(no_session::Error)` wraps the Join-state
error). The radio error payload is an opaque token. -/
inductive Error where
  | radio (e : Nat)
  | session (e : SessionError)
  | noSession (e : NoSessionError)
deriving DecidableEq

/-- `SendData` from `lib.rs`: payload bytes, port and confirmed flag. -/
structure SendData where
  data : List Nat
  fport : Nat
  confirmed : Bool
deriving DecidableEq

/-- A radio event as seen by the state machines. The crypto/encoding
collaborator is external and pure (spec section 6), so its verdict is
carried with the frame: `joinAccept` is a frame that validates and
decodes as a join-accept (with the derived session keys and optional
channel list), `dataDownlink` carries the decrypted payload, its frame
counter and the validity verdict (message integrity and counter
checks), and `other` covers frames failing decode and other phy
events. -/
inductive RadioEvent where
  | joinAccept (newskey appskey devaddr : Nat) (cflist : Option (List Nat))
  | dataDownlink (payload : DecryptedDataPayload) (fcnt_down : Nat) (valid : Bool)
  | other
deriving DecidableEq

/-- `Event` from `lib.rs`. -/
inductive Event where
  | newSessionRequest
  | sendDataRequest (send_data : SendData)
  | radioEvent (radio_event : RadioEvent)
  | timeoutFired
deriving DecidableEq

/-- Modelled from the spec: event handling of the Join State machine
(`no_session::NoSession::handle_event`, not in the visible sources).
Spec section 4.3: `NewSessionRequest` from Idle transmits a
join-request and waits for the first receive window, emitting
`JoinRequestSending` (the frame bytes and the transmit itself are
external effects); `TimeoutFired` while waiting arms the second window,
or returns to Idle with `NoJoinAccept` once both windows have elapsed;
a radio event that validates as a join-accept derives session keys,
initializes the frame counters to zero, stages the `JoinAccept` into
the downlink slot and moves to Active Idle with `JoinSuccess`, while a
failed decode leaves the waiting sub-state unchanged with `NoUpdate`;
`SendDataRequest` anywhere in Join State is rejected with
`Error::NoSession` and the state is unchanged. -/
def NoSession.handle_event : NoSession R → Event → State R × Except Error Response
  | .idle shared, .newSessionRequest =>
      (State.noSession (.waitingForJoinAccept shared JoinRxWindow.first),
       Except.ok Response.joinRequestSending)
  | .idle shared, .sendDataRequest _ =>
      (State.noSession (.idle shared),
       Except.error (Error.noSession NoSessionError.sendDataWhileNoSession))
  | .idle shared, .radioEvent _ =>
      (State.noSession (.idle shared), Except.ok Response.noUpdate)
  | .idle shared, .timeoutFired =>
      (State.noSession (.idle shared), Except.ok Response.noUpdate)
  | .waitingForJoinAccept shared w, .radioEvent re =>
      match re with
      | .joinAccept newskey appskey devaddr cflist =>
          (State.session (Session.idle
              { shared with downlink := some (Downlink.join { cflist := cflist }) }
              (SessionData.new newskey appskey devaddr)),
           Except.ok Response.joinSuccess)
      | _ =>
          (State.noSession (.waitingForJoinAccept shared w),
           Except.ok Response.noUpdate)
  | .waitingForJoinAccept shared w, .timeoutFired =>
      match w with
      | .first =>
          (State.noSession (.waitingForJoinAccept shared JoinRxWindow.second),
           Except.ok Response.noUpdate)
      | .second =>
          (State.noSession (.idle shared), Except.ok Response.noJoinAccept)
  | .waitingForJoinAccept shared w, .sendDataRequest _ =>
      (State.noSession (.waitingForJoinAccept shared w),
       Except.error (Error.noSession NoSessionError.sendDataWhileNoSession))
  | .waitingForJoinAccept shared w, .newSessionRequest =>
      (State.noSession (.waitingForJoinAccept shared w),
       Except.ok Response.noUpdate)

/-- Modelled from the spec: event handling of the Active State machine
(`session::Session::handle_event`, not in the visible sources). Spec
section 4.4: `SendDataRequest` from Idle encrypts the payload,
increments the uplink frame counter, transmits (the Sending sub-state
is transient around the radio handoff) and waits for the receive
windows, emitting `UplinkSending(new_fcnt_up)`; a valid downlink frame
while waiting is decrypted, staged as `Downlink::Data`, advances the
downlink counter and returns to Idle with `DownlinkReceived`, while
malformed or stale frames are ignored without a state change;
`TimeoutFired` arms the second window, then after both windows returns
to Idle with `NoAck` for a confirmed uplink or `ReadyToSend` otherwise;
`NewSessionRequest` anywhere while Active discards the SessionData and
returns to Join State Idle with `SessionExpired`. `SendDataRequest`
while an uplink is in flight violates the one-in-flight contract (spec
section 5) and is rejected without a state change. -/
def Session.handle_event : Session R → Event → State R × Except Error Response
  | .idle shared sd, .sendDataRequest send_data =>
      let sd := { sd with fcnt_up := sd.fcnt_up + 1 }
      (State.session (.waitingForDownlink shared sd send_data.confirmed DataRxWindow.first),
       Except.ok (Response.uplinkSending sd.fcnt_up))
  | .idle shared _, .newSessionRequest =>
      (State.noSession (NoSession.idle shared), Except.ok Response.sessionExpired)
  | .idle shared sd, .radioEvent _ =>
      (State.session (.idle shared sd), Except.ok Response.noUpdate)
  | .idle shared sd, .timeoutFired =>
      (State.session (.idle shared sd), Except.ok Response.noUpdate)
  | .sending shared _ _, .newSessionRequest =>
      (State.noSession (NoSession.idle shared), Except.ok Response.sessionExpired)
  | .sending shared sd c, .sendDataRequest _ =>
      (State.session (.sending shared sd c),
       Except.error (Error.session SessionError.sendDataWhileNotIdle))
  | .sending shared sd c, .radioEvent _ =>
      (State.session (.sending shared sd c), Except.ok Response.noUpdate)
  | .sending shared sd c, .timeoutFired =>
      (State.session (.sending shared sd c), Except.ok Response.noUpdate)
  | .waitingForDownlink shared sd c w, .radioEvent re =>
      match re with
      | .dataDownlink payload fcnt_down true =>
          (State.session (.idle
              { shared with downlink := some (Downlink.data payload) }
              { sd with fcnt_down := fcnt_down }),
           Except.ok (Response.downlinkReceived fcnt_down))
      | _ =>
          (State.session (.waitingForDownlink shared sd c w),
           Except.ok Response.noUpdate)
  | .waitingForDownlink shared sd c w, .timeoutFired =>
      match w with
      | .first =>
          (State.session (.waitingForDownlink shared sd c DataRxWindow.second),
           Except.ok Response.noUpdate)
      | .second =>
          if c then
            (State.session (.idle shared sd), Except.ok Response.noAck)
          else
            (State.session (.idle shared sd), Except.ok Response.readyToSend)
  | .waitingForDownlink shared sd c w, .sendDataRequest _ =>
      (State.session (.waitingForDownlink shared sd c w),
       Except.error (Error.session SessionError.sendDataWhileNotIdle))
  | .waitingForDownlink shared _ _ _, .newSessionRequest =>
      (State.noSession (NoSession.idle shared), Except.ok Response.sessionExpired)

/-- `State::new` from `lib.rs`: network-assisted activation starts in
the Join State machine. -/
def State.new (shared : Shared R) : State R :=
  State.noSession (NoSession.idle shared)

/-- `State::new_abp` from `lib.rs`: preset-key activation builds a
fresh `SessionData` and starts directly in the Active State machine
(spec: in its Idle sub-state; `Session::new` is not in the visible
sources). -/
def State.new_abp (shared : Shared R) (newskey appskey devaddr : Nat) : State R :=
  State.session (Session.idle shared (SessionData.new newskey appskey devaddr))

/-- `JoinMode` from `lib.rs` (EUIs, keys and the device address are
opaque tokens, as in the rest of the model). -/
inductive JoinMode where
  | otaa (deveui appeui : List Nat) (appkey : List Nat)
  | abp (newskey appskey devaddr : Nat)
deriving DecidableEq

/-- `Device::new` from `lib.rs`: OTAA stores the credentials into the
Shared context (`get_mut_credentials().replace(..)`) and starts in Join
State; ABP starts directly in Active State via `State::new_abp`. No
network interaction: the construction is a pure function of its
arguments. -/
def Device.new (join_mode : JoinMode) (shared : Shared R) : Device R :=
  match join_mode with
  | JoinMode.otaa deveui appeui appkey =>
      { state := State.new
          { shared with credentials := some (Credentials.new appeui deveui appkey) } }
  | JoinMode.abp newskey appskey devaddr =>
      { state := State.new_abp shared newskey appskey devaddr }

/-- `Device::get_shared` from `lib.rs`: the Shared context of whichever
state machine is current (read half of the `&mut` accessor). -/
def Device.get_shared (d : Device R) : Shared R :=
  match d.state with
  | State.noSession st => st.get_shared
  | State.session st => st.get_shared

/-- Write half of `Device::get_shared`: replace the Shared context
owned by the current state machine. -/
def Device.with_shared (d : Device R) (s : Shared R) : Device R :=
  match d.state with
  | State.noSession st => { state := State.noSession (st.with_shared s) }
  | State.session st => { state := State.session (st.with_shared s) }

/-- `Device::get_datarate` from `lib.rs`. -/
def Device.get_datarate (d : Device R) : Nat :=
  d.get_shared.get_datarate

/-- `Device::set_datarate` from `lib.rs`. -/
def Device.set_datarate (d : Device R) (datarate : Nat) : Device R :=
  d.with_shared (d.get_shared.set_datarate datarate)

/-- `Device::ready_to_send_data` from `lib.rs`:
`matches!(&self.state, State::Session(session::Session::Idle(_)))`. -/
def Device.ready_to_send_data (d : Device R) : Bool :=
  match d.state with
  | State.session (Session.idle _ _) => true
  | _ => false

/-- `Device::get_fcnt_up` from `lib.rs`. -/
def Device.get_fcnt_up (d : Device R) : Option Nat :=
  match d.state with
  | State.session session => some session.get_session_data.fcnt_up
  | _ => none

/-- `Device::get_session_keys` from `lib.rs`. -/
def Device.get_session_keys (d : Device R) : Option SessionKeys :=
  match d.state with
  | State.session session =>
      some (SessionKeys.copy_from_session_data session.get_session_data)
  | _ => none

/-- `Device::take_data_downlink` from `lib.rs`: forwarded to the Shared
context. -/
def Device.take_data_downlink (d : Device R) :
    Option DecryptedDataPayload × Device R :=
  let (r, s) := d.get_shared.take_data_downlink
  (r, d.with_shared s)

/-- `Device::take_join_accept` from `lib.rs`: forwarded to the Shared
context. -/
def Device.take_join_accept (d : Device R) : Option JoinAccept × Device R :=
  let (r, s) := d.get_shared.take_join_accept
  (r, d.with_shared s)

/-- `Device::handle_event` from `lib.rs`: consumes the Device and
dispatches to whichever state machine is current; always returns the
new Device together with the Result. -/
def Device.handle_event (d : Device R) (event : Event) :
    Device R × Except Error Response :=
  match d.state with
  | State.noSession st =>
      let (s, r) := st.handle_event event
      ({ state := s }, r)
  | State.session st =>
      let (s, r) := st.handle_event event
      ({ state := s }, r)

/-- `Device::send` from `lib.rs`: wraps the payload, port and confirmed
flag in a `SendDataRequest` event and handles it. -/
def Device.send (d : Device R) (data : List Nat) (fport : Nat) (confirmed : Bool) :
    Device R × Except Error Response :=
  d.handle_event (Event.sendDataRequest { data := data, fport := fport, confirmed := confirmed })

/-- Fold a sequence of events through `Device::handle_event`, keeping
the Device returned at each step (the caller's usage pattern from spec
section 2). -/
def Device.run_events (d : Device R) (events : List Event) : Device R :=
  events.foldl (fun acc e => (acc.handle_event e).1) d

/-- C1: for every event and every device state, `handle_event` consumes
the Device and returns a pair of a new Device and a Result; the Device
component is present for every input (including every error outcome),
so after any sequence of `handle_event` calls the caller always holds a
live Device. -/
theorem handle_event_always_returns_device {R : Type} (d : Device R) (e : Event)
    (events : List Event) :
    (∃ d2 res, d.handle_event e = (d2, res))
    ∧ ∃ d2, d.run_events events = d2 :=
  ⟨⟨(d.handle_event e).1, (d.handle_event e).2, rfl⟩, ⟨d.run_events events, rfl⟩⟩

/-- C5: constructing a Device with preset keys (ABP join mode) skips
the join handshake: the Device is directly in Active State's Idle
sub-state with uplink and downlink frame counters both zero, and
construction touches nothing outside its arguments (the Shared context
is passed through unchanged; no network interaction). -/
theorem new_abp_starts_active_idle {R : Type} (shared : Shared R)
    (newskey appskey devaddr : Nat) :
    (Device.new (JoinMode.abp newskey appskey devaddr) shared).state
        = State.session (Session.idle shared (SessionData.new newskey appskey devaddr))
    ∧ (Device.new (JoinMode.abp newskey appskey devaddr) shared).ready_to_send_data = true
    ∧ (Device.new (JoinMode.abp newskey appskey devaddr) shared).get_fcnt_up = some 0
    ∧ (SessionData.new newskey appskey devaddr).fcnt_up = 0
    ∧ (SessionData.new newskey appskey devaddr).fcnt_down = 0
    ∧ (Device.new (JoinMode.abp newskey appskey devaddr) shared).get_shared = shared :=
  ⟨rfl, rfl, rfl, rfl, rfl, rfl⟩

/-- C6: `ready_to_send_data` returns true iff the Device is in Active
State's Idle sub-state, and false in Join State (either sub-state) and
in every other Active sub-state (Sending, WaitingForDownlink). -/
theorem ready_to_send_data_iff_active_idle {R : Type} (d : Device R)
    (sh : Shared R) (sd : SessionData) (c : Bool) (jw : JoinRxWindow)
    (dw : DataRxWindow) :
    (d.ready_to_send_data = true
        ↔ ∃ sh2 sd2, d.state = State.session (Session.idle sh2 sd2))
    ∧ (Device.mk (State.session (Session.idle sh sd))).ready_to_send_data = true
    ∧ (Device.mk (State.noSession (NoSession.idle sh))).ready_to_send_data = false
    ∧ (Device.mk (State.noSession (NoSession.waitingForJoinAccept sh jw))).ready_to_send_data = false
    ∧ (Device.mk (State.session (Session.sending sh sd c))).ready_to_send_data = false
    ∧ (Device.mk (State.session (Session.waitingForDownlink sh sd c dw))).ready_to_send_data = false := by
  obtain ⟨st⟩ := d
  refine ⟨⟨?_, ?_⟩, rfl, rfl, rfl, rfl, rfl⟩
  · intro ht
    cases st with
    | noSession ns => cases ns <;> simp [Device.ready_to_send_data] at ht
    | session ss =>
      cases ss with
      | idle sh2 sd2 => exact ⟨sh2, sd2, rfl⟩
      | sending sh2 sd2 c2 => simp [Device.ready_to_send_data] at ht
      | waitingForDownlink sh2 sd2 c2 w2 => simp [Device.ready_to_send_data] at ht
  · rintro ⟨sh2, sd2, hst⟩
    simp only at hst
    subst hst
    rfl

/-- Witness for C6: a concrete Active-Idle Device, shown ready to send
by the iff direction of the theorem. -/
theorem ready_to_send_data_iff_active_idle_witness :
    (Device.mk (State.session (Session.idle (Shared.mk () none 0 0 0 [] none 0)
        (SessionData.new 1 2 3)))).ready_to_send_data = true :=
  (ready_to_send_data_iff_active_idle
      (Device.mk (State.session (Session.idle (Shared.mk () none 0 0 0 [] none 0)
        (SessionData.new 1 2 3))))
      (Shared.mk () none 0 0 0 [] none 0) (SessionData.new 1 2 3) false
      JoinRxWindow.first DataRxWindow.first).1.mpr
    ⟨Shared.mk () none 0 0 0 [] none 0, SessionData.new 1 2 3, rfl⟩

/-- C7: `get_fcnt_up` and `get_session_keys` return `none` whenever the
Device is in Join State, and return the session's uplink counter and
session keys whenever the Device is in Active State. -/
theorem observability_accessors_by_state {R : Type} (ns : NoSession R)
    (s : Session R) :
    (Device.mk (State.noSession ns)).get_fcnt_up = none
    ∧ (Device.mk (State.noSession ns)).get_session_keys = none
    ∧ (Device.mk (State.session s)).get_fcnt_up = some s.get_session_data.fcnt_up
    ∧ (Device.mk (State.session s)).get_session_keys
        = some (SessionKeys.copy_from_session_data s.get_session_data) :=
  ⟨rfl, rfl, rfl, rfl⟩

/-- C8: `send(data, fport, confirmed)` is definitionally the same
transition as `handle_event(SendDataRequest)` with the same payload,
port and confirmed flag, in every device state. -/
theorem send_equals_handle_event_send_data_request {R : Type} (d : Device R)
    (data : List Nat) (fport : Nat) (confirmed : Bool) :
    d.send data fport confirmed
      = d.handle_event (Event.sendDataRequest (SendData.mk data fport confirmed)) :=
  rfl

/-- C10: in either state variant, `set_datarate` followed by
`get_datarate` returns the value just set, and `set_datarate` changes
only the datarate field of the Shared context, leaving the radio,
credentials, region, MAC state, randomness source, buffer, downlink
slot, the session counters and the state variant unchanged. -/
theorem set_datarate_roundtrip_and_frame {R : Type} (d : Device R)
    (s : Shared R) (dr : Nat) :
    (d.set_datarate dr).get_datarate = dr
    ∧ (d.set_datarate dr).get_fcnt_up = d.get_fcnt_up
    ∧ (d.set_datarate dr).ready_to_send_data = d.ready_to_send_data
    ∧ (d.set_datarate dr).get_shared.downlink = d.get_shared.downlink
    ∧ (s.set_datarate dr).get_datarate = dr
    ∧ (s.set_datarate dr).radio = s.radio
    ∧ (s.set_datarate dr).credentials = s.credentials
    ∧ (s.set_datarate dr).region = s.region
    ∧ (s.set_datarate dr).mac = s.mac
    ∧ (s.set_datarate dr).get_random = s.get_random
    ∧ (s.set_datarate dr).buffer = s.buffer
    ∧ (s.set_datarate dr).downlink = s.downlink := by
  obtain ⟨st⟩ := d
  refine ⟨?_, ?_, ?_, ?_, rfl, rfl, rfl, rfl, rfl, rfl, rfl, rfl⟩ <;>
    (cases st with
     | noSession ns => cases ns <;> rfl
     | session ss => cases ss <;> rfl)

/-- C2: `take_data_downlink` and `take_join_accept` each return the
staged item of their kind and clear the downlink slot, or return `none`
when nothing of that kind is staged; delivery is exactly-once — a
second call of the same operation with no new arrival in between
returns `none`. -/
theorem take_downlink_exactly_once {R : Type} (s : Shared R) :
    s.take_data_downlink.2.take_data_downlink.1 = none
    ∧ s.take_join_accept.2.take_join_accept.1 = none
    ∧ (∀ p, s.downlink = some (Downlink.data p) →
        s.take_data_downlink = (some p, { s with downlink := none }))
    ∧ (∀ j, s.downlink = some (Downlink.join j) →
        s.take_join_accept = (some j, { s with downlink := none }))
    ∧ (s.downlink = none →
        s.take_data_downlink.1 = none ∧ s.take_join_accept.1 = none)
    ∧ (∀ j, s.downlink = some (Downlink.join j) → s.take_data_downlink.1 = none)
    ∧ (∀ p, s.downlink = some (Downlink.data p) → s.take_join_accept.1 = none) := by
  obtain ⟨radio, credentials, region, mac, get_random, buffer, downlink, datarate⟩ := s
  rcases downlink with _ | dl
  · simp [Shared.take_data_downlink, Shared.take_join_accept]
  · cases dl <;> simp [Shared.take_data_downlink, Shared.take_join_accept]

/-- Witness for C2: on a concrete Shared context with a data payload
staged, the first take returns the payload and clears the slot, the
second take returns nothing. -/
theorem take_downlink_exactly_once_witness :
    (Shared.mk () none 0 0 0 []
        (some (Downlink.data (DecryptedDataPayload.mk [1, 2, 3]))) 0).take_data_downlink
      = (some (DecryptedDataPayload.mk [1, 2, 3]), Shared.mk () none 0 0 0 [] none 0)
    ∧ (Shared.mk () none 0 0 0 []
        (some (Downlink.data (DecryptedDataPayload.mk [1, 2, 3]))) 0).take_data_downlink.2.take_data_downlink.1
      = none :=
  ⟨(take_downlink_exactly_once (Shared.mk () none 0 0 0 []
        (some (Downlink.data (DecryptedDataPayload.mk [1, 2, 3]))) 0)).2.2.1
      (DecryptedDataPayload.mk [1, 2, 3]) rfl,
   (take_downlink_exactly_once (Shared.mk () none 0 0 0 []
        (some (Downlink.data (DecryptedDataPayload.mk [1, 2, 3]))) 0)).1⟩

/-- C3: within one session, the uplink frame counter observed via
`get_fcnt_up` never decreases across any event handled while the
session persists; when the event produces `UplinkSending`, the counter
is exactly incremented by one. -/
theorem fcnt_up_monotone {R : Type} (d : Device R) (e : Event) (f f2 : Nat)
    (h : d.get_fcnt_up = some f)
    (h2 : (d.handle_event e).1.get_fcnt_up = some f2) :
    f ≤ f2
    ∧ ((d.handle_event e).2 = Except.ok (Response.uplinkSending f2) → f2 = f + 1) := by
  obtain ⟨st⟩ := d
  cases st with
  | noSession ns => simp [Device.get_fcnt_up] at h
  | session ss =>
    cases ss with
    | idle sh sd =>
      cases e with
      | newSessionRequest =>
        simp [Device.handle_event, Session.handle_event, Device.get_fcnt_up] at h2
      | sendDataRequest sdr =>
        simp [Device.handle_event, Session.handle_event, Device.get_fcnt_up,
          Session.get_session_data] at h h2 ⊢
        omega
      | radioEvent re =>
        simp [Device.handle_event, Session.handle_event, Device.get_fcnt_up,
          Session.get_session_data] at h h2 ⊢
        omega
      | timeoutFired =>
        simp [Device.handle_event, Session.handle_event, Device.get_fcnt_up,
          Session.get_session_data] at h h2 ⊢
        omega
    | sending sh sd c =>
      cases e with
      | newSessionRequest =>
        simp [Device.handle_event, Session.handle_event, Device.get_fcnt_up] at h2
      | sendDataRequest sdr =>
        simp [Device.handle_event, Session.handle_event, Device.get_fcnt_up,
          Session.get_session_data] at h h2 ⊢
        omega
      | radioEvent re =>
        simp [Device.handle_event, Session.handle_event, Device.get_fcnt_up,
          Session.get_session_data] at h h2 ⊢
        omega
      | timeoutFired =>
        simp [Device.handle_event, Session.handle_event, Device.get_fcnt_up,
          Session.get_session_data] at h h2 ⊢
        omega
    | waitingForDownlink sh sd c w =>
      cases e with
      | newSessionRequest =>
        simp [Device.handle_event, Session.handle_event, Device.get_fcnt_up] at h2
      | sendDataRequest sdr =>
        simp [Device.handle_event, Session.handle_event, Device.get_fcnt_up,
          Session.get_session_data] at h h2 ⊢
        omega
      | radioEvent re =>
        cases re with
        | joinAccept nk ak da cf =>
          simp [Device.handle_event, Session.handle_event, Device.get_fcnt_up,
            Session.get_session_data] at h h2 ⊢
          omega
        | dataDownlink p fd v =>
          cases v <;>
            simp [Device.handle_event, Session.handle_event, Device.get_fcnt_up,
              Session.get_session_data] at h h2 ⊢ <;>
            omega
        | other =>
          simp [Device.handle_event, Session.handle_event, Device.get_fcnt_up,
            Session.get_session_data] at h h2 ⊢
          omega
      | timeoutFired =>
        cases w <;> cases c <;>
          simp [Device.handle_event, Session.handle_event, Device.get_fcnt_up,
            Session.get_session_data] at h h2 ⊢ <;>
          omega

/-- Witness for C3: a fresh ABP session (counter 0) handling a
successful send request moves the counter to 1. -/
theorem fcnt_up_monotone_witness :
    (0 : Nat) ≤ 1
    ∧ (((Device.new (JoinMode.abp 1 2 3) (Shared.mk () none 0 0 0 [] none 0)).handle_event
          (Event.sendDataRequest (SendData.mk [5] 1 true))).2
        = Except.ok (Response.uplinkSending 1) → 1 = 0 + 1) :=
  fcnt_up_monotone (Device.new (JoinMode.abp 1 2 3) (Shared.mk () none 0 0 0 [] none 0))
    (Event.sendDataRequest (SendData.mk [5] 1 true)) 0 1 rfl rfl

/-- C4: `send` (that is, `handle_event` with `SendDataRequest`) while
the Device is in Join State fails with `Error::NoSession` and returns
the Device unchanged, still in Join State. -/
theorem send_in_join_state_no_session {R : Type} (d : Device R) (ns : NoSession R)
    (data : List Nat) (fport : Nat) (confirmed : Bool)
    (h : d.state = State.noSession ns) :
    d.send data fport confirmed
      = (d, Except.error (Error.noSession NoSessionError.sendDataWhileNoSession)) := by
  obtain ⟨st⟩ := d
  simp only at h
  subst h
  cases ns <;> rfl

/-- Witness for C4: a concrete OTAA-constructed Device (Join State
Idle) rejects a send with `Error::NoSession` and is returned
unchanged. -/
theorem send_in_join_state_no_session_witness :
    (Device.new (JoinMode.otaa [1] [2] [3]) (Shared.mk () none 0 0 0 [] none 0)).send [9] 2 false
      = (Device.new (JoinMode.otaa [1] [2] [3]) (Shared.mk () none 0 0 0 [] none 0),
         Except.error (Error.noSession NoSessionError.sendDataWhileNoSession)) :=
  send_in_join_state_no_session
    (Device.new (JoinMode.otaa [1] [2] [3]) (Shared.mk () none 0 0 0 [] none 0))
    (NoSession.idle (Shared.mk ()
      (some (Credentials.new [2] [1] [3])) 0 0 0 [] none 0))
    [9] 2 false rfl

/-- C9: a take operation empties the slot even when the staged item is
of the other kind, returning `none` and discarding the item:
`take_data_downlink` with a join-accept staged returns `none` and
clears the slot (a subsequent `take_join_accept` returns `none`), and
symmetrically for `take_join_accept` with a data payload staged. -/
theorem take_wrong_kind_discards {R : Type} (s1 s2 : Shared R)
    (j : JoinAccept) (p : DecryptedDataPayload)
    (h1 : s1.downlink = some (Downlink.join j))
    (h2 : s2.downlink = some (Downlink.data p)) :
    s1.take_data_downlink.1 = none
    ∧ s1.take_data_downlink.2.downlink = none
    ∧ s1.take_data_downlink.2.take_join_accept.1 = none
    ∧ s2.take_join_accept.1 = none
    ∧ s2.take_join_accept.2.downlink = none
    ∧ s2.take_join_accept.2.take_data_downlink.1 = none := by
  simp [Shared.take_data_downlink, Shared.take_join_accept, h1, h2]

/-- Witness for C9: concrete Shared contexts holding a join-accept and
a data payload, each drained by the take of the other kind. -/
theorem take_wrong_kind_discards_witness :
    (Shared.mk () none 0 0 0 []
        (some (Downlink.join (JoinAccept.mk (some [1, 2, 3, 4, 5])))) 0).take_data_downlink.1 = none
    ∧ (Shared.mk () none 0 0 0 []
        (some (Downlink.join (JoinAccept.mk (some [1, 2, 3, 4, 5])))) 0).take_data_downlink.2.downlink = none
    ∧ (Shared.mk () none 0 0 0 []
        (some (Downlink.join (JoinAccept.mk (some [1, 2, 3, 4, 5])))) 0).take_data_downlink.2.take_join_accept.1 = none
    ∧ (Shared.mk () none 0 0 0 []
        (some (Downlink.data (DecryptedDataPayload.mk [7]))) 0).take_join_accept.1 = none
    ∧ (Shared.mk () none 0 0 0 []
        (some (Downlink.data (DecryptedDataPayload.mk [7]))) 0).take_join_accept.2.downlink = none
    ∧ (Shared.mk () none 0 0 0 []
        (some (Downlink.data (DecryptedDataPayload.mk [7]))) 0).take_join_accept.2.take_data_downlink.1 = none :=
  take_wrong_kind_discards
    (Shared.mk () none 0 0 0 []
      (some (Downlink.join (JoinAccept.mk (some [1, 2, 3, 4, 5])))) 0)
    (Shared.mk () none 0 0 0 []
      (some (Downlink.data (DecryptedDataPayload.mk [7]))) 0)
    (JoinAccept.mk (some [1, 2, 3, 4, 5])) (DecryptedDataPayload.mk [7]) rfl rfl

end LorawanDevice
